import Mathlib

/-!
Shallow embedding of the browser-based video annotating tool
(client hook `useVideoUpload`, component `VideoPlayer`, and the Express
route `GET /api/videos/:id/vtt`).

Modelling conventions:
* canvas coordinates are integers (`Int`); the JavaScript code uses IEEE
  doubles but every claim here only compares, subtracts and takes minima /
  maxima of coordinates, operations on which the integer embedding is exact;
* the condition `Math.sqrt(dx*dx + dy*dy) > 30` is embedded as
  `dx*dx + dy*dy > 900`, which is equivalent for real inputs since both
  sides of the original comparison are nonnegative;
* nondeterministic data (fresh ids built from `Date.now()` and
  `Math.random()`, random confidence values) are passed in as parameters;
* React `setState` with a functional updater is threaded as explicit state.
-/

namespace VideoApp

/-- A canvas point, as produced by `getCanvasCoordinates`. -/
structure Point where
  x : Int
  y : Int
deriving DecidableEq, Repr

/-- The `type` discriminator of a `DrawnArea` ("path" | "rectangle"). -/
inductive AreaKind where
  | path
  | rectangle
deriving DecidableEq, Repr

/-- A committed drawn region (interface `DrawnArea` in `VideoPlayer.tsx`). -/
structure DrawnArea where
  id : String
  points : List Point
  color : String
  kind : AreaKind
  startPoint : Option Point := none
  endPoint : Option Point := none
deriving DecidableEq, Repr

/-- A detected object (interface `DetectedObject` in `shared/types.ts`). -/
structure DetectedObject where
  id : String
  name : String
  confidence : Rat
  selected : Bool
  code : Option String := none
  additionalInfo : Option String := none
  dlReservoirDomain : Option String := none
  category : Option String := none
deriving DecidableEq, Repr

/-- A video session (interface `VideoInfo` in `shared/types.ts`; the `File`
object and upload date are irrelevant to every claim and are omitted). -/
structure VideoInfo where
  id : String
  duration : Int
  currentTime : Int
  detectedObjects : List DetectedObject
  totalObjectsCreated : Nat
deriving DecidableEq, Repr

/-- The fixed default object set `DEFAULT_OBJECTS` used by the simulated
detection pass (the `id` field is overwritten at insertion time). -/
def defaultObjects : List DetectedObject :=
  [ { id := "", name := "Object(1)", confidence := 0.95, selected := false,
      code := some "CODE_OBJ001",
      additionalInfo := some "AI가 자동으로 탐지한 객체입니다.",
      dlReservoirDomain := some "http://www.naver.com", category := some "기타" },
    { id := "", name := "Object(2)", confidence := 0.87, selected := false,
      code := some "CODE_OBJ002",
      additionalInfo := some "AI가 자동으로 탐지한 객체입니다.",
      dlReservoirDomain := some "http://www.naver.com", category := some "기타" },
    { id := "", name := "Object(3)", confidence := 0.92, selected := false,
      code := some "CODE_OBJ003",
      additionalInfo := some "AI가 자동으로 탐지한 객체입니다.",
      dlReservoirDomain := some "http://www.naver.com", category := some "기타" },
    { id := "", name := "Object(4)", confidence := 0.78, selected := false,
      code := some "CODE_OBJ004",
      additionalInfo := some "AI가 자동으로 탐지한 객체입니다.",
      dlReservoirDomain := some "http://www.naver.com", category := some "기타" },
    { id := "", name := "Object(5)", confidence := 0.84, selected := false,
      code := some "CODE_OBJ005",
      additionalInfo := some "AI가 자동으로 탐지한 객체입니다.",
      dlReservoirDomain := some "http://www.naver.com", category := some "기타" } ]

/-- The default name pattern `Object(<n>)`. -/
def objectName (n : Nat) : String :=
  "Object(" ++ toString n ++ ")"

/-- The `newObject` record literal built inside `addNewObjectToVideo`. -/
def mkNewObject (freshId : String) (conf : Rat) (finalObjectName : String) :
    DetectedObject :=
  { id := freshId,
    name := finalObjectName,
    confidence := conf,
    selected := false,
    code := some ("CODE_" ++ (freshId.take 8).map Char.toUpper),
    additionalInfo := some "AI가 자동으로 탐지한 객체입니다.",
    dlReservoirDomain := some "http://www.naver.com",
    category := some "기타" }

/-- `addNewObjectToVideo` from the `useVideoUpload` hook.  `freshId` stands
for the id string built from `Date.now()` and `Math.random()`, `conf` for the
random confidence `0.85 + Math.random() * 0.15`.  The JavaScript expression
`objectName || defaultName` treats the empty string as absent, which the
`Option`-plus-emptiness test reproduces.  Returns the updated video list and
the `finalObjectName` the hook returns to its caller. -/
def addNewObjectToVideo (videos : List VideoInfo) (videoId : String)
    (objName : Option String) (freshId : String) (conf : Rat) :
    List VideoInfo × String :=
  let currentVideo := videos.find? (fun v => v.id = videoId)
  let nextObjectNumber :=
    match currentVideo with
    | some v => v.totalObjectsCreated + 1
    | none => 1
  let finalObjectName :=
    match objName with
    | some s => if s = "" then objectName nextObjectNumber else s
    | none => objectName nextObjectNumber
  let newObject := mkNewObject freshId conf finalObjectName
  (videos.map (fun video =>
      if video.id = videoId then
        { video with
          totalObjectsCreated := video.totalObjectsCreated + 1,
          detectedObjects := video.detectedObjects ++ [newObject] }
      else video),
   finalObjectName)

/-- `deleteObjectFromVideo` from the `useVideoUpload` hook. -/
def deleteObjectFromVideo (videos : List VideoInfo) (videoId objectId : String) :
    List VideoInfo :=
  videos.map (fun video =>
    if video.id = videoId then
      { video with
        detectedObjects :=
          video.detectedObjects.filter (fun obj => obj.id ≠ objectId) }
    else video)

/-- Bulk deletion as performed by `confirmDelete` in `VideoPlayer.tsx` for
`BULK_DELETE`: it iterates `selectedObjectIds` and calls the single-object
`onDeleteObject` callback once per id. -/
def deleteObjects (videos : List VideoInfo) (videoId : String)
    (objectIds : List String) : List VideoInfo :=
  objectIds.foldl (fun vs oid => deleteObjectFromVideo vs videoId oid) videos

/-- The optional-field patch accepted by `updateObjectInVideo` (each field is
present in the JavaScript `updates` object iff it is `some` here). -/
structure ObjectUpdates where
  name : Option String := none
  code : Option String := none
  additionalInfo : Option String := none
  dlReservoirDomain : Option String := none
  category : Option String := none
deriving DecidableEq, Repr

/-- The spread `{ ...obj, ...updates }`: a field present in the patch
overrides the object's field, an absent one leaves it alone. -/
def mergeObject (obj : DetectedObject) (u : ObjectUpdates) : DetectedObject :=
  { obj with
    name := u.name.getD obj.name,
    code := match u.code with | some c => some c | none => obj.code,
    additionalInfo :=
      match u.additionalInfo with | some a => some a | none => obj.additionalInfo,
    dlReservoirDomain :=
      match u.dlReservoirDomain with
      | some d => some d
      | none => obj.dlReservoirDomain,
    category := match u.category with | some c => some c | none => obj.category }

/-- `updateObjectInVideo` from the `useVideoUpload` hook. -/
def updateObjectInVideo (videos : List VideoInfo) (videoId objectId : String)
    (u : ObjectUpdates) : List VideoInfo :=
  videos.map (fun video =>
    if video.id = videoId then
      { video with
        detectedObjects := video.detectedObjects.map (fun obj =>
          if obj.id = objectId then mergeObject obj u else obj) }
    else video)

/-- The catalog mutation performed when the detection simulation reaches
100% in `runObjectDetection`: a video matching `videoId` whose catalog is
empty receives the default set with fresh ids and names `Object(1..5)`, and
its counter becomes `max totalObjectsCreated 5`; any video with a non-empty
catalog is returned unchanged.  `fid i` stands for the random id generated
for the `i`-th default object. -/
def detectPopulate (videos : List VideoInfo) (videoId : String)
    (fid : Nat → String) : List VideoInfo :=
  videos.map (fun video =>
    if video.id ≠ videoId then video
    else if video.detectedObjects.length > 0 then video
    else
      { video with
        detectedObjects := defaultObjects.enum.map (fun p =>
          { p.2 with id := fid p.1, name := objectName (p.1 + 1) }),
        totalObjectsCreated :=
          max video.totalObjectsCreated defaultObjects.length })

/-- State owned by the `useVideoUpload` hook that the detection claims
mention (UI-animation flags are omitted). -/
structure HookState where
  videos : List VideoInfo
  selectedVideoId : Option String
  isDetecting : Bool
  detectionProgress : Nat
  hasRunDetection : Bool
deriving DecidableEq, Repr

/-- The synchronous entry of `runObjectDetection`: the guard
`if (!videoId || isDetecting) return;` makes the call a no-op when a run is
already in progress or the id is empty; otherwise it flags a run as started
and resets the progress value. -/
def runObjectDetectionStart (s : HookState) (videoId : String) : HookState :=
  if videoId = "" ∨ s.isDetecting then s
  else { s with isDetecting := true, detectionProgress := 0 }

/-- The completion branch of `runObjectDetection`'s interval callback
(`newProgress >= 100`): stop detecting, pin progress at 100, set
`hasRunDetection`, populate the catalog via `detectPopulate`, and re-select
the video. -/
def runObjectDetectionComplete (s : HookState) (videoId : String)
    (fid : Nat → String) : HookState :=
  { s with
    isDetecting := false,
    detectionProgress := 100,
    hasRunDetection := true,
    videos := detectPopulate s.videos videoId fid,
    selectedVideoId := some videoId }

/-- `handleFileSelect` from the `useVideoUpload` hook, on the assumption the
`fetch` succeeds and the server answers with id `respId`.  The MIME type and
the size guards reject without touching the list; a successful upload calls
`setVideos([{ ... }])`, replacing the whole list with the one new session. -/
def handleFileSelect (videos : List VideoInfo) (fileType : List Char)
    (fileSize : Nat) (respId : String) : List VideoInfo :=
  if ¬ (fileType.take 6 = "video/".toList) then videos
  else if fileSize > 2 * 1024 * 1024 * 1024 then videos
  else
    [ { id := respId, duration := 0, currentTime := 0,
        detectedObjects := [], totalObjectsCreated := 0 } ]

/-- The `drawingMode` state ("free" | "rectangle"). -/
inductive DrawMode where
  | free
  | rectangle
deriving DecidableEq, Repr

/-- Drawing-related state of the `VideoPlayer` component. -/
structure DrawingState where
  isDrawing : Bool
  isMouseDown : Bool
  canvasInitialized : Bool
  isErasing : Bool
  drawingMode : DrawMode
  rectangleStart : Option Point
  currentRectangle : Option DrawnArea
  currentPath : List Point
  drawnAreas : List DrawnArea
  showAdminPanel : Bool
deriving DecidableEq, Repr

/-- The `newArea` a rectangle drag from anchor `rs` to release point
`coords` commits: `startPoint` is the componentwise minimum, `endPoint` the
componentwise maximum (`normalizedStartPoint` / `normalizedEndPoint` in the
source). -/
def normalizedRect (rs coords : Point) (freshId : String) : DrawnArea :=
  { id := freshId, points := [], color := "#ef4444",
    kind := AreaKind.rectangle,
    startPoint := some { x := min rs.x coords.x, y := min rs.y coords.y },
    endPoint := some { x := max rs.x coords.x, y := max rs.y coords.y } }

/-- The `closedPath` a freehand capture stores: when the first and last
captured points are more than 30 pixels apart (embedded as squared distance
greater than 900) a closing copy of the first point is appended, otherwise
the captured list is stored as is. -/
def closedPath (ps : List Point) : List Point :=
  let firstPoint := ps.headD { x := 0, y := 0 }
  let lastPoint := ps.getLastD { x := 0, y := 0 }
  let dx := firstPoint.x - lastPoint.x
  let dy := firstPoint.y - lastPoint.y
  if dx * dx + dy * dy > 900 then ps ++ [firstPoint] else ps

/-- The `newArea` a freehand capture commits. -/
def pathArea (ps : List Point) (freshId : String) : DrawnArea :=
  { id := freshId, points := closedPath ps, color := "#ef4444",
    kind := AreaKind.path }

/-- `handleMouseUp` in `VideoPlayer.tsx`.  `coords` is the result of
`getCanvasCoordinates(e)` and `freshId` the id string built from
`Date.now()` and `Math.random()` for a committed area. -/
def handleMouseUp (s : DrawingState) (coords : Point) (freshId : String) :
    DrawingState :=
  if ¬ (s.isDrawing ∧ s.isMouseDown ∧ s.canvasInitialized) then s
  else
    let s1 := { s with isMouseDown := false }
    if s1.isErasing then s1
    else
      let s2 :=
        if s1.drawingMode = DrawMode.rectangle then
          match s1.rectangleStart with
          | some rs =>
            let width := |coords.x - rs.x|
            let height := |coords.y - rs.y|
            let areas :=
              if width > 5 ∧ height > 5 then
                s1.drawnAreas ++ [normalizedRect rs coords freshId]
              else s1.drawnAreas
            { s1 with drawnAreas := areas, rectangleStart := none,
                      currentRectangle := none }
          | none => s1
        else if s1.drawingMode = DrawMode.free ∧ 2 < s1.currentPath.length then
          { s1 with drawnAreas :=
              s1.drawnAreas ++ [pathArea s1.currentPath freshId] }
        else s1
      { s2 with currentPath := [] }

/-- `toggleDrawing` in `VideoPlayer.tsx`, restricted to the modelled state
(the captured playback position and the deferred `play()` act only on the
video element and are not part of the drawing state). -/
def toggleDrawing (s : DrawingState) : DrawingState :=
  if ¬ s.isDrawing then
    { s with isDrawing := true, showAdminPanel := false }
  else
    { s with isDrawing := false, showAdminPanel := true,
             currentPath := [], isMouseDown := false, isErasing := false,
             rectangleStart := none, currentRectangle := none }

/-- The commit loop of `saveDrawingsAndDownloadWebVTT`: iterate over the
drawn areas with their index, name the `index`-th one
`Object(detectedObjects.length + index + 1)` (where `detectedObjects` is the
catalog prop captured at render, of length `detLen`), call
`onAddNewObject(video.id, objectName)` and collect the names it returns.
`fids` and `confs` feed the per-call random id and confidence. -/
def commitAreas (videoId : String) (detLen : Nat) (videos : List VideoInfo) :
    List DrawnArea → Nat → List String → List Rat →
    List VideoInfo × List String
  | [], _, _, _ => (videos, [])
  | _ :: rest, i, fids, confs =>
    let r := addNewObjectToVideo videos videoId
      (some (objectName (detLen + i + 1))) (fids.headD "") (confs.headD 0)
    let rr := commitAreas videoId detLen r.1 rest (i + 1) fids.tail confs.tail
    (rr.1, r.2 :: rr.2)

/-- `saveDrawingsAndDownloadWebVTT`, object-commit part: commit every drawn
area, announce the collected names, and clear the drawn-area list. -/
def saveDrawings (videos : List VideoInfo) (videoId : String) (detLen : Nat)
    (areas : List DrawnArea) (fids : List String) (confs : List Rat) :
    List VideoInfo × List String :=
  commitAreas videoId detLen videos areas 0 fids confs

/-- The result of serving `GET /api/videos/:id/vtt`. -/
inductive VttResult where
  | download (fileName : List Char)
  | notFound
deriving DecidableEq, Repr

/-- The regex `id.replace(/\.[^/.]+$/, "")` in `videoUpload.ts`, on the id's
character list: the pattern matches iff the maximal trailing run of
characters that are neither `.` nor `/` is nonempty and is preceded by a
`.`; that dot and everything after it are removed, otherwise the id is
returned unchanged. -/
def stripExt (s : List Char) : List Char :=
  let rev := s.reverse
  let run := rev.takeWhile (fun c => c ≠ '.' ∧ c ≠ '/')
  match rev.drop run.length with
  | '.' :: before => if run.isEmpty then s else before.reverse
  | _ => s

/-- The file name the route looks up: `${stripExt id}.vtt`. -/
def vttFile (id : List Char) : List Char :=
  stripExt id ++ ".vtt".toList

/-- The `GET /api/videos/:id/vtt` handler: `store` stands for the set of
file names present in the upload directory; a missing `.vtt` file yields a
404, a present one is streamed as a download. -/
def vttGet (store : List (List Char)) (id : List Char) : VttResult :=
  if vttFile id ∈ store then VttResult.download (vttFile id)
  else VttResult.notFound

/-- One catalog operation of the kinds claim C4 quantifies over. -/
inductive CatalogOp where
  | add (videoId : String) (objName : Option String) (freshId : String)
        (conf : Rat)
  | del (videoId objectId : String)
  | detect (videoId : String) (fid : Nat → String)

/-- Apply one catalog operation to the video list. -/
def applyOp (videos : List VideoInfo) : CatalogOp → List VideoInfo
  | CatalogOp.add videoId objName freshId conf =>
    (addNewObjectToVideo videos videoId objName freshId conf).1
  | CatalogOp.del videoId objectId =>
    deleteObjectFromVideo videos videoId objectId
  | CatalogOp.detect videoId fid =>
    detectPopulate videos videoId fid

/-- Apply a sequence of catalog operations in order. -/
def applyOps (videos : List VideoInfo) : List CatalogOp → List VideoInfo
  | [] => videos
  | op :: rest => applyOps (applyOp videos op) rest

/-- The `totalObjectsCreated` counter of the video `find?` locates (0 when
the id is absent, mirroring `nextObjectNumber`'s fallback of 1 = 0 + 1). -/
def counterOf (videos : List VideoInfo) (videoId : String) : Nat :=
  match videos.find? (fun v => v.id = videoId) with
  | some v => v.totalObjectsCreated
  | none => 0

/-- The default names `Object(<n>)` an operation generates: an `add` whose
caller passed no name (or the empty string, which `||` treats as absent)
generates one default name, and a completed detection run on a present video
with an empty catalog generates `Object(1)` .. `Object(5)`. -/
def opDefaultNames (videos : List VideoInfo) : CatalogOp → List String
  | CatalogOp.add videoId objName freshId conf =>
    match objName with
    | none => [(addNewObjectToVideo videos videoId none freshId conf).2]
    | some s =>
      if s = "" then [(addNewObjectToVideo videos videoId (some s) freshId conf).2]
      else []
  | CatalogOp.del _ _ => []
  | CatalogOp.detect videoId _ =>
    match videos.find? (fun v => v.id = videoId) with
    | some v =>
      if v.detectedObjects.length = 0 then
        (List.range defaultObjects.length).map (fun i => objectName (i + 1))
      else []
    | none => []

/-- Run a sequence of operations, collecting every generated default name in
order. -/
def runTrace (videos : List VideoInfo) : List CatalogOp →
    List VideoInfo × List String
  | [] => (videos, [])
  | op :: rest =>
    let names := opDefaultNames videos op
    let r := runTrace (applyOp videos op) rest
    (r.1, names ++ r.2)

/-- The numbers of the default names generated by `add` operations that
target video `videoId` (an `add` with an explicit nonempty name generates no
default name). -/
def opAddNums (videos : List VideoInfo) (videoId : String) :
    CatalogOp → List Nat
  | CatalogOp.add v objName _ _ =>
    if v = videoId ∧ (objName = none ∨ objName = some "") then
      [counterOf videos videoId + 1]
    else []
  | CatalogOp.del _ _ => []
  | CatalogOp.detect _ _ => []

/-- Collect, over a whole operation sequence, the numbers used in default
names generated by `add` operations on `videoId`. -/
def runAddNums (videos : List VideoInfo) (videoId : String) :
    List CatalogOp → List Nat
  | [] => []
  | op :: rest =>
    opAddNums videos videoId op ++ runAddNums (applyOp videos op) videoId rest

/-! Concrete data used by witnesses and counterexamples. -/

/-- A drawing state in the middle of a freehand capture. -/
def demoCaptureState : DrawingState :=
  { isDrawing := true, isMouseDown := true, canvasInitialized := true,
    isErasing := false, drawingMode := DrawMode.free,
    rectangleStart := some { x := 1, y := 2 },
    currentRectangle := none,
    currentPath := [{ x := 0, y := 0 }, { x := 3, y := 4 }],
    drawnAreas := [ { id := "rect-old", points := [], color := "#ef4444",
                      kind := AreaKind.rectangle,
                      startPoint := some { x := 0, y := 0 },
                      endPoint := some { x := 8, y := 8 } } ],
    showAdminPanel := false }

/-- A drawing state in the middle of a rectangle drag anchored at the
origin. -/
def demoRectDragState : DrawingState :=
  { isDrawing := true, isMouseDown := true, canvasInitialized := true,
    isErasing := false, drawingMode := DrawMode.rectangle,
    rectangleStart := some { x := 0, y := 0 },
    currentRectangle := none, currentPath := [],
    drawnAreas := [], showAdminPanel := false }

/-- A drawing state in the middle of a freehand capture whose endpoints are
far apart (squared distance 80*80 = 6400 > 900). -/
def demoPathDragState : DrawingState :=
  { isDrawing := true, isMouseDown := true, canvasInitialized := true,
    isErasing := false, drawingMode := DrawMode.free,
    rectangleStart := none, currentRectangle := none,
    currentPath := [{ x := 0, y := 0 }, { x := 40, y := 0 },
                    { x := 80, y := 0 }],
    drawnAreas := [], showAdminPanel := false }

/-- A detected object used by witnesses. -/
def demoObj1 : DetectedObject :=
  { id := "v-obj-1", name := "Object(1)", confidence := 0.95,
    selected := false }

/-- A hook state with a detection run in progress. -/
def demoHookBusy : HookState :=
  { videos := [], selectedVideoId := none, isDetecting := true,
    detectionProgress := 42, hasRunDetection := false }

/-- A hook state whose selected video already has one detected object. -/
def demoHookPopulated : HookState :=
  { videos := [ { id := "v", duration := 0, currentTime := 0,
                  detectedObjects := [demoObj1], totalObjectsCreated := 1 } ],
    selectedVideoId := some "v", isDetecting := false,
    detectionProgress := 0, hasRunDetection := true }

/-- A patch carrying only a new name. -/
def demoPatch : ObjectUpdates := { name := some "renamed" }

/-- A committed rectangle region. -/
def demoRectArea : DrawnArea :=
  { id := "r1", points := [], color := "#ef4444", kind := AreaKind.rectangle,
    startPoint := some { x := 0, y := 0 },
    endPoint := some { x := 10, y := 10 } }

/-- A committed freehand region. -/
def demoPathArea : DrawnArea :=
  { id := "p1",
    points := [{ x := 0, y := 0 }, { x := 5, y := 0 }, { x := 5, y := 5 },
               { x := 0, y := 0 }],
    color := "#ef4444", kind := AreaKind.path }

/-- A session in which three objects were created and two deleted: the
catalog holds one object while the creation counter stands at 3. -/
def demoVideosAfterDelete : List VideoInfo :=
  [ { id := "v", duration := 0, currentTime := 0,
      detectedObjects := [demoObj1], totalObjectsCreated := 3 } ]

/-- A fresh session holding one video with an empty catalog. -/
def demoVideosStart : List VideoInfo :=
  [ { id := "v", duration := 0, currentTime := 0, detectedObjects := [],
      totalObjectsCreated := 0 } ]

/-- Create one object with a default name, delete it, then run detection on
the now-empty catalog. -/
def demoOpsReuse : List CatalogOp :=
  [ CatalogOp.add "v" none "id1" 0.9,
    CatalogOp.del "v" "id1",
    CatalogOp.detect "v" (fun i => "d" ++ toString i) ]

/-! Theorems. -/

/-- C10: toggling drawing mode off while a region capture is in progress
discards the in-progress region unconditionally — the transient capture
state (current path, rectangle anchor, preview rectangle, erase flag,
mouse-down flag) is cleared and nothing is partially committed — while the
list of already-committed regions is left unchanged by the toggle itself. -/
theorem toggleDrawing_off_discards_capture (s : DrawingState)
    (h : s.isDrawing = true) :
    (toggleDrawing s).currentPath = [] ∧
    (toggleDrawing s).rectangleStart = none ∧
    (toggleDrawing s).currentRectangle = none ∧
    (toggleDrawing s).isErasing = false ∧
    (toggleDrawing s).isMouseDown = false ∧
    (toggleDrawing s).isDrawing = false ∧
    (toggleDrawing s).drawnAreas = s.drawnAreas := by
  simp [toggleDrawing, h]

/-- Witness for C10 at a concrete mid-capture state. -/
theorem toggleDrawing_off_discards_capture_witness :
    (toggleDrawing demoCaptureState).currentPath = [] ∧
    (toggleDrawing demoCaptureState).drawnAreas = demoCaptureState.drawnAreas := by
  have h := toggleDrawing_off_discards_capture demoCaptureState rfl
  exact ⟨h.1, h.2.2.2.2.2.2⟩

/-- C2: on pointer-up of a rectangle drag from anchor `p` to release point
`q`, exactly one rectangle region is committed when both axis deltas exceed
5, with `startPoint` the componentwise minimum and `endPoint` the
componentwise maximum of `p` and `q` (so `startPoint.x ≤ endPoint.x` and
`startPoint.y ≤ endPoint.y`); when either axis delta is at most 5 the region
list is left unchanged. -/
theorem handleMouseUp_rectangle_commit (s : DrawingState) (p q : Point)
    (fid : String)
    (hd : s.isDrawing = true) (hm : s.isMouseDown = true)
    (hc : s.canvasInitialized = true) (he : s.isErasing = false)
    (hmode : s.drawingMode = DrawMode.rectangle)
    (hrs : s.rectangleStart = some p) :
    (handleMouseUp s q fid).drawnAreas =
      (if 5 < |q.x - p.x| ∧ 5 < |q.y - p.y| then
        s.drawnAreas ++ [normalizedRect p q fid]
      else s.drawnAreas) ∧
    min p.x q.x ≤ max p.x q.x ∧ min p.y q.y ≤ max p.y q.y := by
  refine ⟨?_, ?_, ?_⟩
  · by_cases hcond : 5 < |q.x - p.x| ∧ 5 < |q.y - p.y| <;>
      simp [handleMouseUp, hd, hm, hc, he, hmode, hrs, hcond]
  · exact min_le_max
  · exact min_le_max

/-- Witness for C2: a 10×9 drag from the origin commits exactly the
normalized rectangle, while an 10×3 drag commits nothing. -/
theorem handleMouseUp_rectangle_commit_witness :
    (handleMouseUp demoRectDragState { x := 10, y := 9 } "rect-1").drawnAreas =
      [normalizedRect { x := 0, y := 0 } { x := 10, y := 9 } "rect-1"] ∧
    (handleMouseUp demoRectDragState { x := 10, y := 3 } "rect-2").drawnAreas =
      [] := by
  constructor
  · have h := handleMouseUp_rectangle_commit demoRectDragState
      { x := 0, y := 0 } { x := 10, y := 9 } "rect-1" rfl rfl rfl rfl rfl rfl
    rw [h.1]
    norm_num [demoRectDragState]
  · have h := handleMouseUp_rectangle_commit demoRectDragState
      { x := 0, y := 0 } { x := 10, y := 3 } "rect-2" rfl rfl rfl rfl rfl rfl
    rw [h.1]
    norm_num [demoRectDragState]

/-- C3: on pointer-up of a freehand capture, a path region is committed only
when the accumulated point list has more than 2 points; the stored point
sequence gets a closing copy of the first point appended exactly when the
squared distance between the first and last points exceeds 900 (that is,
the Euclidean distance exceeds 30 pixels); captures with at most 2 points
commit nothing. -/
theorem handleMouseUp_path_commit (s : DrawingState) (q : Point)
    (fid : String)
    (hd : s.isDrawing = true) (hm : s.isMouseDown = true)
    (hc : s.canvasInitialized = true) (he : s.isErasing = false)
    (hmode : s.drawingMode = DrawMode.free) :
    (2 < s.currentPath.length →
      (handleMouseUp s q fid).drawnAreas =
        s.drawnAreas ++ [pathArea s.currentPath fid] ∧
      (let firstPoint := s.currentPath.headD { x := 0, y := 0 }
       let lastPoint := s.currentPath.getLastD { x := 0, y := 0 }
       let dx := firstPoint.x - lastPoint.x
       let dy := firstPoint.y - lastPoint.y
       (pathArea s.currentPath fid).points =
         if dx * dx + dy * dy > 900 then s.currentPath ++ [firstPoint]
         else s.currentPath)) ∧
    (s.currentPath.length ≤ 2 →
      (handleMouseUp s q fid).drawnAreas = s.drawnAreas ∧
      (handleMouseUp s q fid).currentPath = []) := by
  constructor
  · intro hlen
    constructor
    · simp [handleMouseUp, hd, hm, hc, he, hmode, hlen]
    · simp [pathArea, closedPath]
  · intro hlen
    have hnot : ¬ 2 < s.currentPath.length := not_lt.mpr hlen
    constructor <;> simp [handleMouseUp, hd, hm, hc, he, hmode, hnot]

/-- Witness for C3: a three-point capture with far-apart endpoints commits
one auto-closed path; a two-point capture commits nothing. -/
theorem handleMouseUp_path_commit_witness :
    (handleMouseUp demoPathDragState { x := 80, y := 0 } "path-1").drawnAreas =
      [pathArea demoPathDragState.currentPath "path-1"] ∧
    (pathArea demoPathDragState.currentPath "path-1").points =
      demoPathDragState.currentPath ++ [{ x := 0, y := 0 }] ∧
    (handleMouseUp demoCaptureState { x := 3, y := 4 } "path-2").drawnAreas =
      demoCaptureState.drawnAreas := by
  refine ⟨?_, ?_, ?_⟩
  · have h := handleMouseUp_path_commit demoPathDragState { x := 80, y := 0 }
      "path-1" rfl rfl rfl rfl rfl
    have h1 := (h.1 (by norm_num [demoPathDragState])).1
    rw [h1]
    norm_num [demoPathDragState]
  · have h := handleMouseUp_path_commit demoPathDragState { x := 80, y := 0 }
      "path-1" rfl rfl rfl rfl rfl
    have h2 := (h.1 (by norm_num [demoPathDragState])).2
    simpa [demoPathDragState] using h2
  · have h := handleMouseUp_path_commit demoCaptureState { x := 3, y := 4 }
      "path-2" rfl rfl rfl rfl rfl
    exact (h.2 (by norm_num [demoCaptureState])).1

/-- `detectPopulate` leaves the list unchanged when every video matching the
id already has a non-empty catalog. -/
theorem detectPopulate_nonempty_fixed (l : List VideoInfo) (vid : String)
    (fid : Nat → String)
    (h : ∀ v ∈ l, v.id = vid → v.detectedObjects ≠ []) :
    detectPopulate l vid fid = l := by
  unfold detectPopulate
  conv_rhs => rw [← List.map_id l]
  apply List.map_congr_left
  intro v hv
  by_cases hid : v.id = vid
  · have hlen : 0 < v.detectedObjects.length :=
      List.length_pos.mpr (h v hv hid)
    simp [hid, hlen]
  · simp [hid]

/-- C5: running detection is idempotent with respect to the catalog: the
guard `if (!videoId || isDetecting) return` makes a new run a no-op while
one is in progress, and completion on a video whose catalog is already
non-empty leaves the video list unchanged (the 5-object default set is never
duplicated). -/
theorem runObjectDetection_idempotent :
    (∀ (s : HookState) (videoId : String),
      s.isDetecting = true → runObjectDetectionStart s videoId = s) ∧
    (∀ (s : HookState) (videoId : String) (fid : Nat → String),
      (∀ v ∈ s.videos, v.id = videoId → v.detectedObjects ≠ []) →
      (runObjectDetectionComplete s videoId fid).videos = s.videos) := by
  constructor
  · intro s vid h
    simp [runObjectDetectionStart, h]
  · intro s vid fid h
    simp [runObjectDetectionComplete,
      detectPopulate_nonempty_fixed s.videos vid fid h]

/-- Witness for C5 at concrete states. -/
theorem runObjectDetection_idempotent_witness :
    runObjectDetectionStart demoHookBusy "v" = demoHookBusy ∧
    (runObjectDetectionComplete demoHookPopulated "v"
        (fun i => toString i)).videos = demoHookPopulated.videos :=
  ⟨runObjectDetection_idempotent.1 demoHookBusy "v" rfl,
   runObjectDetection_idempotent.2 demoHookPopulated "v"
     (fun i => toString i) (by decide)⟩

/-- C6: bulk deletion by an id list removes from the matching video's
catalog exactly the objects whose ids are in the list — every other object
is kept, in order, other videos are untouched, and ids that match nothing
(such as a missing id) have no effect and raise no error. -/
theorem deleteObjects_removes_exactly (videos : List VideoInfo)
    (videoId : String) (ids : List String) :
    deleteObjects videos videoId ids =
      videos.map (fun v =>
        if v.id = videoId then
          { v with detectedObjects :=
              v.detectedObjects.filter (fun o => o.id ∉ ids) }
        else v) := by
  induction ids generalizing videos with
  | nil =>
    simp [deleteObjects]
  | cons oid rest ih =>
    have step : deleteObjects videos videoId (oid :: rest) =
        deleteObjects (deleteObjectFromVideo videos videoId oid) videoId rest :=
      rfl
    rw [step, ih, deleteObjectFromVideo, List.map_map]
    apply List.map_congr_left
    intro v _
    by_cases h : v.id = videoId
    · simp only [Function.comp, h, if_pos, List.filter_filter]
      congr 1
      apply List.filter_congr
      intro o _
      simp [List.mem_cons, not_or, Bool.decide_and, Bool.and_comm]
    · simp [Function.comp, h]

/-- Objects whose id differs from the target are never touched by an
update. -/
theorem map_update_id (objs : List DetectedObject) (objectId : String)
    (u : ObjectUpdates) (h : ∀ o ∈ objs, o.id ≠ objectId) :
    objs.map (fun o => if o.id = objectId then mergeObject o u else o) =
      objs := by
  induction objs with
  | nil => rfl
  | cons o t ih =>
    have ho := h o (List.mem_cons_self o t)
    have ht := fun w hw => h w (List.mem_cons_of_mem o hw)
    simp [ho, ih ht]

/-- C7: `updateObjectInVideo` merges only the fields present in the patch
into the matching object — id, confidence and selection flag are never
touched, a present patch field overrides, an absent one leaves the field
alone — and when no object with the target id exists in the video's catalog
the whole operation is a silent no-op. -/
theorem updateObject_merges_and_missing_noop :
    (∀ (videos : List VideoInfo) (videoId objectId : String)
       (u : ObjectUpdates),
      (∀ v ∈ videos, v.id = videoId →
        ∀ o ∈ v.detectedObjects, o.id ≠ objectId) →
      updateObjectInVideo videos videoId objectId u = videos) ∧
    (∀ (o : DetectedObject) (u : ObjectUpdates),
      (mergeObject o u).id = o.id ∧
      (mergeObject o u).confidence = o.confidence ∧
      (mergeObject o u).selected = o.selected ∧
      (u.name = none → (mergeObject o u).name = o.name) ∧
      (∀ s, u.name = some s → (mergeObject o u).name = s) ∧
      (u.code = none → (mergeObject o u).code = o.code) ∧
      (∀ c, u.code = some c → (mergeObject o u).code = some c) ∧
      (u.additionalInfo = none →
        (mergeObject o u).additionalInfo = o.additionalInfo) ∧
      (∀ a, u.additionalInfo = some a →
        (mergeObject o u).additionalInfo = some a) ∧
      (u.dlReservoirDomain = none →
        (mergeObject o u).dlReservoirDomain = o.dlReservoirDomain) ∧
      (∀ d, u.dlReservoirDomain = some d →
        (mergeObject o u).dlReservoirDomain = some d) ∧
      (u.category = none → (mergeObject o u).category = o.category) ∧
      (∀ c, u.category = some c → (mergeObject o u).category = some c)) := by
  constructor
  · intro videos vid oid u h
    induction videos with
    | nil => rfl
    | cons v t ih =>
      have hv := h v (List.mem_cons_self v t)
      have ht := fun w hw => h w (List.mem_cons_of_mem v hw)
      have htail : updateObjectInVideo t vid oid u = t := ih ht
      simp only [updateObjectInVideo, List.map_cons] at htail ⊢
      by_cases hid : v.id = vid
      · rw [if_pos hid, map_update_id v.detectedObjects oid u (hv hid), htail]
      · rw [if_neg hid, htail]
  · intro o u
    refine ⟨rfl, rfl, rfl, ?_, ?_, ?_, ?_, ?_, ?_, ?_, ?_, ?_, ?_⟩ <;>
      first
        | (intro h; simp [mergeObject, h])
        | (intro x h; simp [mergeObject, h])

/-- Witness for C7: a missing-id update is a no-op on a concrete catalog,
and a name-only patch renames without touching the confidence. -/
theorem updateObject_witness :
    updateObjectInVideo demoHookPopulated.videos "v" "zzz" demoPatch =
      demoHookPopulated.videos ∧
    (mergeObject demoObj1 demoPatch).name = "renamed" ∧
    (mergeObject demoObj1 demoPatch).confidence = demoObj1.confidence :=
  ⟨updateObject_merges_and_missing_noop.1 demoHookPopulated.videos "v" "zzz"
     demoPatch (by decide),
   (updateObject_merges_and_missing_noop.2 demoObj1 demoPatch).2.2.2.2.1
     "renamed" rfl,
   (updateObject_merges_and_missing_noop.2 demoObj1 demoPatch).2.1⟩

/-- `takeWhile` walks through a prefix all of whose elements satisfy the
predicate. -/
theorem takeWhile_append_all {α : Type} (p : α → Bool) (l r : List α)
    (h : ∀ c ∈ l, p c = true) :
    (l ++ r).takeWhile p = l ++ r.takeWhile p := by
  induction l with
  | nil => simp
  | cons c t ih =>
    have hc := h c (List.mem_cons_self c t)
    have ht := fun x hx => h x (List.mem_cons_of_mem c hx)
    simp [List.takeWhile_cons, hc, ih ht]

/-- C8: the route `GET /api/videos/:id/vtt` strips a trailing extension from
the id (a final dot followed by at least one character that is neither a dot
nor a slash) and appends `.vtt`; an id without a dot is used unchanged; and
the response is a 404 exactly when the resulting `.vtt` file is absent from
the upload directory. -/
theorem vtt_route_spec :
    (∀ (base ext : List Char), ext ≠ [] →
      (∀ c ∈ ext, c ≠ '.' ∧ c ≠ '/') →
      stripExt (base ++ '.' :: ext) = base) ∧
    (∀ id : List Char, '.' ∉ id → stripExt id = id) ∧
    (∀ (store : List (List Char)) (id : List Char),
      vttGet store id = VttResult.notFound ↔ vttFile id ∉ store) := by
  refine ⟨?_, ?_, ?_⟩
  · intro base ext hne hext
    have hrev : (base ++ '.' :: ext).reverse =
        ext.reverse ++ '.' :: base.reverse := by
      simp [List.reverse_append]
    have hall : ∀ c ∈ ext.reverse,
        (fun c => decide (c ≠ '.' ∧ c ≠ '/')) c = true := by
      intro c hc
      have := hext c (List.mem_reverse.mp hc)
      simp [this.1, this.2]
    have hrun : (ext.reverse ++ '.' :: base.reverse).takeWhile
        (fun c => decide (c ≠ '.' ∧ c ≠ '/')) = ext.reverse := by
      rw [takeWhile_append_all _ _ _ hall]
      simp [List.takeWhile_cons]
    have hdrop : (ext.reverse ++ '.' :: base.reverse).drop
        ext.reverse.length = '.' :: base.reverse := by
      rw [List.drop_left]
    have hempty : ext.reverse.isEmpty = false := by
      cases hx : ext.reverse with
      | nil => exact absurd (List.reverse_eq_nil_iff.mp hx) hne
      | cons a l => rfl
    simp only [stripExt, hrev, hrun, hdrop, hempty]
    simp
  · intro id hdot
    simp only [stripExt]
    cases hdrop : id.reverse.drop
        ((id.reverse.takeWhile (fun c => decide (c ≠ '.' ∧ c ≠ '/'))).length)
        with
    | nil => simp [hdrop]
    | cons c before =>
      have hc : c ∈ id := by
        have h1 : c ∈ id.reverse.drop
            ((id.reverse.takeWhile
              (fun c => decide (c ≠ '.' ∧ c ≠ '/'))).length) := by
          rw [hdrop]; exact List.mem_cons_self c before
        exact List.mem_reverse.mp (List.drop_subset _ _ h1)
      have hcne : ¬ c = '.' := fun hh => hdot (hh ▸ hc)
      simp [hdrop, hcne]
  · intro store id
    by_cases hmem : vttFile id ∈ store <;> simp [vttGet, hmem]

/-- Witness for C8: the id `171234.mp4` resolves to file `171234.vtt`, an
extensionless id is kept unchanged, and an empty store yields a 404. -/
theorem vtt_route_witness :
    stripExt ("171234.mp4".toList) = "171234".toList ∧
    stripExt ("171234".toList) = "171234".toList ∧
    vttGet [] ("171234.mp4".toList) = VttResult.notFound := by
  refine ⟨?_, ?_, ?_⟩
  · have e : ("171234.mp4".toList) =
        "171234".toList ++ '.' :: "mp4".toList := by decide
    rw [e]
    exact vtt_route_spec.1 ("171234".toList) ("mp4".toList)
      (by decide) (by decide)
  · exact vtt_route_spec.2.1 ("171234".toList) (by decide)
  · exact (vtt_route_spec.2.2 [] ("171234.mp4".toList)).mpr (by decide)

/-- A generated default name is never the empty string. -/
theorem objectName_ne_empty (n : Nat) : objectName n ≠ "" := by
  intro h
  have hlen := congrArg String.length h
  simp [objectName, String.length_append] at hlen
  exact absurd hlen.1.1 (by decide)

/-- C1 (amended): exporting with one rectangle and one freehand region
commits exactly 2 new objects to every video matching the id, named with the
next two sequential values of the current catalog length (`detLen + 1` and
`detLen + 2`, where `detLen` is the length of the `detectedObjects` prop
captured at render) — not of the creation counter — the announced name list
contains exactly those two names in order, and the creation counter rises by
2. -/
theorem commitRegions_names_from_catalog_length (videos : List VideoInfo)
    (videoId : String) (detLen : Nat) (a1 a2 : DrawnArea) (f1 f2 : String)
    (c1 c2 : Rat) :
    (saveDrawings videos videoId detLen [a1, a2] [f1, f2] [c1, c2]).2 =
      [objectName (detLen + 1), objectName (detLen + 2)] ∧
    (saveDrawings videos videoId detLen [a1, a2] [f1, f2] [c1, c2]).1 =
      videos.map (fun v =>
        if v.id = videoId then
          { v with
            totalObjectsCreated := v.totalObjectsCreated + 2,
            detectedObjects := v.detectedObjects ++
              [mkNewObject f1 c1 (objectName (detLen + 1)),
               mkNewObject f2 c2 (objectName (detLen + 2))] }
        else v) := by
  have h1 : ¬ objectName (detLen + 0 + 1) = "" := objectName_ne_empty _
  have h2 : ¬ objectName (detLen + 1 + 1) = "" := objectName_ne_empty _
  constructor
  · simp [saveDrawings, commitAreas, addNewObjectToVideo, h1, h2]
  · simp only [saveDrawings, commitAreas, addNewObjectToVideo, h1, h2,
      if_neg, List.headD_cons, List.tail_cons]
    rw [List.map_map]
    apply List.map_congr_left
    intro v _
    by_cases hid : v.id = videoId
    · simp [Function.comp, hid]
    · simp [Function.comp, hid]

/-- Counterexample to C1 as stated: in a session whose creation counter is 3
but whose catalog holds a single object, exporting a rectangle and a
freehand path announces `Object(2)` and `Object(3)` (catalog length + 1 and
+ 2), not `Object(4)` and `Object(5)` (counter + 1 and + 2) as the claim
requires. -/
theorem commitRegions_counter_naming_refuted :
    (demoVideosAfterDelete.headD
        { id := "", duration := 0, currentTime := 0, detectedObjects := [],
          totalObjectsCreated := 0 }).totalObjectsCreated = 3 ∧
    (demoVideosAfterDelete.headD
        { id := "", duration := 0, currentTime := 0, detectedObjects := [],
          totalObjectsCreated := 0 }).detectedObjects.length = 1 ∧
    (saveDrawings demoVideosAfterDelete "v" 1
        [demoRectArea, demoPathArea] ["f1", "f2"] [0.9, 0.9]).2 =
      ["Object(2)", "Object(3)"] ∧
    (saveDrawings demoVideosAfterDelete "v" 1
        [demoRectArea, demoPathArea] ["f1", "f2"] [0.9, 0.9]).2 ≠
      ["Object(4)", "Object(5)"] := by
  decide

/-- C9 (amended): a successful upload replaces the whole video list with the
single new session — earlier uploads are discarded rather than kept
alongside. -/
theorem upload_replaces_video_list (videos : List VideoInfo)
    (fileType : List Char) (fileSize : Nat) (respId : String)
    (hty : fileType.take 6 = "video/".toList)
    (hsz : fileSize ≤ 2 * 1024 * 1024 * 1024) :
    handleFileSelect videos fileType fileSize respId =
      [{ id := respId, duration := 0, currentTime := 0,
         detectedObjects := [], totalObjectsCreated := 0 }] := by
  simp [handleFileSelect, hty, Nat.not_lt.mpr hsz]

/-- Witness for C9's amended statement at a concrete upload. -/
theorem upload_replaces_video_list_witness :
    handleFileSelect demoVideosStart ("video/mp4".toList) 100 "B" =
      [{ id := "B", duration := 0, currentTime := 0, detectedObjects := [],
         totalObjectsCreated := 0 }] :=
  upload_replaces_video_list demoVideosStart ("video/mp4".toList) 100 "B"
    (by decide) (by decide)

/-- Counterexample to C9 as stated: uploading video `A` and then video `B`
leaves only `B` in the list — `A` is gone, so two uploaded-but-inactive
sessions never coexist. -/
theorem upload_does_not_keep_previous_refuted :
    handleFileSelect
        (handleFileSelect [] ("video/mp4".toList) 100 "A")
        ("video/mp4".toList) 100 "B" =
      [{ id := "B", duration := 0, currentTime := 0, detectedObjects := [],
         totalObjectsCreated := 0 }] ∧
    "A" ∈ (handleFileSelect [] ("video/mp4".toList) 100 "A").map
        (fun v => v.id) ∧
    "A" ∉ (handleFileSelect
        (handleFileSelect [] ("video/mp4".toList) 100 "A")
        ("video/mp4".toList) 100 "B").map (fun v => v.id) := by
  decide

/-- `find?` over a map whose function preserves the id field. -/
theorem find?_map_id_preserving (l : List VideoInfo) (vid : String)
    (f : VideoInfo → VideoInfo) (hf : ∀ v, (f v).id = v.id) :
    (l.map f).find? (fun v => v.id = vid) =
      (l.find? (fun v => v.id = vid)).map f := by
  induction l with
  | nil => rfl
  | cons v t ih =>
    by_cases h : v.id = vid
    · simp [List.find?_cons, hf v, h]
    · simp [List.find?_cons, hf v, h, ih]

/-- `counterOf` can only grow under a map whose function preserves ids and
never lowers the counter. -/
theorem counterOf_map_ge (l : List VideoInfo) (vid : String)
    (f : VideoInfo → VideoInfo) (hf : ∀ v, (f v).id = v.id)
    (hc : ∀ v, v.totalObjectsCreated ≤ (f v).totalObjectsCreated) :
    counterOf l vid ≤ counterOf (l.map f) vid := by
  unfold counterOf
  rw [find?_map_id_preserving l vid f hf]
  cases h : l.find? (fun v => v.id = vid) with
  | none => simp
  | some w => simpa using hc w

/-- Every single catalog operation leaves `counterOf` at least as large. -/
theorem counterOf_applyOp_le (videos : List VideoInfo) (vid : String)
    (op : CatalogOp) :
    counterOf videos vid ≤ counterOf (applyOp videos op) vid := by
  cases op with
  | add v' nm fi c =>
    simp only [applyOp, addNewObjectToVideo]
    apply counterOf_map_ge
    · intro v; by_cases h : v.id = v' <;> simp [h]
    · intro v; by_cases h : v.id = v' <;> simp [h]
  | del v' oid =>
    simp only [applyOp, deleteObjectFromVideo]
    apply counterOf_map_ge
    · intro v; by_cases h : v.id = v' <;> simp [h]
    · intro v; by_cases h : v.id = v' <;> simp [h]
  | detect v' fi =>
    simp only [applyOp, detectPopulate]
    apply counterOf_map_ge
    · intro v
      by_cases h : v.id = v'
      · by_cases hl : v.detectedObjects.length > 0 <;> simp [h, hl]
      · simp [h]
    · intro v
      by_cases h : v.id = v'
      · by_cases hl : v.detectedObjects.length > 0 <;> simp [h, hl]
      · simp [h]

/-- `counterOf` never decreases across a sequence of catalog operations. -/
theorem counterOf_applyOps_le (videos : List VideoInfo) (vid : String)
    (ops : List CatalogOp) :
    counterOf videos vid ≤ counterOf (applyOps videos ops) vid := by
  induction ops generalizing videos with
  | nil => exact le_refl _
  | cons op rest ih =>
    exact le_trans (counterOf_applyOp_le videos vid op)
      (ih (applyOp videos op))

/-- Whether a video id is present is invariant under every catalog
operation. -/
theorem find?_isSome_applyOp (videos : List VideoInfo) (vid : String)
    (op : CatalogOp) :
    ((applyOp videos op).find? (fun v => v.id = vid)).isSome =
      (videos.find? (fun v => v.id = vid)).isSome := by
  cases op with
  | add v' nm fi c =>
    simp only [applyOp, addNewObjectToVideo]
    rw [find?_map_id_preserving]
    · simp
    · intro v; by_cases h : v.id = v' <;> simp [h]
  | del v' oid =>
    simp only [applyOp, deleteObjectFromVideo]
    rw [find?_map_id_preserving]
    · simp
    · intro v; by_cases h : v.id = v' <;> simp [h]
  | detect v' fi =>
    simp only [applyOp, detectPopulate]
    rw [find?_map_id_preserving]
    · simp
    · intro v
      by_cases h : v.id = v'
      · by_cases hl : v.detectedObjects.length > 0 <;> simp [h, hl]
      · simp [h]

/-- Adding an object to a present video increments its counter by exactly
one. -/
theorem counterOf_add_present (videos : List VideoInfo) (vid : String)
    (nm : Option String) (fi : String) (c : Rat)
    (h : (videos.find? (fun v => v.id = vid)).isSome = true) :
    counterOf (applyOp videos (CatalogOp.add vid nm fi c)) vid =
      counterOf videos vid + 1 := by
  obtain ⟨w, hw⟩ := Option.isSome_iff_exists.mp h
  have hwid : w.id = vid := by simpa using List.find?_some hw
  simp only [applyOp, addNewObjectToVideo, counterOf]
  rw [find?_map_id_preserving, hw]
  · simp [hwid]
  · intro v; by_cases hv : v.id = vid <;> simp [hv]

/-- Every default-name number an `add` generates later in a run is strictly
above the current counter. -/
theorem runAddNums_lt (videos : List VideoInfo) (vid : String)
    (ops : List CatalogOp) :
    ∀ n ∈ runAddNums videos vid ops, counterOf videos vid < n := by
  induction ops generalizing videos with
  | nil => intro n hn; simp [runAddNums] at hn
  | cons op rest ih =>
    intro n hn
    simp only [runAddNums, List.mem_append] at hn
    rcases hn with hn | hn
    · cases op with
      | add v' nm fi c =>
        simp only [opAddNums] at hn
        by_cases hcond : v' = vid ∧ (nm = none ∨ nm = some "")
        · rw [if_pos hcond] at hn
          simp at hn
          omega
        · rw [if_neg hcond] at hn
          simp at hn
      | del a b => simp [opAddNums] at hn
      | detect a f => simp [opAddNums] at hn
    · exact lt_of_le_of_lt (counterOf_applyOp_le videos vid op)
        (ih (applyOp videos op) n hn)

/-- The default-name numbers generated by `add` operations on a present
video are strictly increasing along any run. -/
theorem runAddNums_pairwise (ops : List CatalogOp) :
    ∀ (videos : List VideoInfo) (vid : String),
      (videos.find? (fun v => v.id = vid)).isSome = true →
      (runAddNums videos vid ops).Pairwise (· < ·) := by
  induction ops with
  | nil => intro videos vid _; simp [runAddNums]
  | cons op rest ih =>
    intro videos vid hpres
    have hpres' :
        ((applyOp videos op).find? (fun v => v.id = vid)).isSome = true := by
      rw [find?_isSome_applyOp]; exact hpres
    have htail := ih (applyOp videos op) vid hpres'
    simp only [runAddNums]
    cases op with
    | add v' nm fi c =>
      by_cases hcond : v' = vid ∧ (nm = none ∨ nm = some "")
      · simp only [opAddNums, if_pos hcond, List.singleton_append]
        apply List.Pairwise.cons
        · intro b hb
          have hlt := runAddNums_lt (applyOp videos (CatalogOp.add v' nm fi c))
            vid rest b hb
          have heq := counterOf_add_present videos vid nm fi c hpres
          rw [hcond.1] at hlt
          omega
        · exact htail
      · simp only [opAddNums, if_neg hcond, List.nil_append]
        exact htail
    | del a b =>
      simp only [opAddNums, List.nil_append]
      exact htail
    | detect a f =>
      simp only [opAddNums, List.nil_append]
      exact htail

/-- C4 (amended): across any sequence of add, delete and detection
operations, a video's `totalObjectsCreated` counter never decreases; and the
numbers embedded in the default names generated by `add` operations on a
present video are strictly increasing, hence never reused — detection,
however, repopulates an emptied catalog with the fixed names
`Object(1)`..`Object(5)`, which may repeat numbers used by earlier adds. -/
theorem counter_monotone_and_add_names_fresh (videos : List VideoInfo)
    (vid : String) (ops : List CatalogOp) :
    counterOf videos vid ≤ counterOf (applyOps videos ops) vid ∧
    ((videos.find? (fun v => v.id = vid)).isSome = true →
      (runAddNums videos vid ops).Pairwise (· < ·)) :=
  ⟨counterOf_applyOps_le videos vid ops,
   fun hpres => runAddNums_pairwise ops videos vid hpres⟩

/-- Witness for C4's amended statement on a concrete run. -/
theorem counter_monotone_and_add_names_fresh_witness :
    counterOf demoVideosStart "v" ≤
      counterOf (applyOps demoVideosStart demoOpsReuse) "v" ∧
    (runAddNums demoVideosStart "v" demoOpsReuse).Pairwise (· < ·) :=
  ⟨(counter_monotone_and_add_names_fresh demoVideosStart "v" demoOpsReuse).1,
   (counter_monotone_and_add_names_fresh demoVideosStart "v" demoOpsReuse).2
     (by decide)⟩

/-- Counterexample to C4 as stated: create an object (default name
`Object(1)`), delete it, then run detection — the detection pass regenerates
`Object(1)` (through `Object(5)`), so the number 1 is reused within the
session. -/
theorem default_names_reused_refuted :
    (runTrace demoVideosStart demoOpsReuse).2 =
      ["Object(1)", "Object(1)", "Object(2)", "Object(3)", "Object(4)",
       "Object(5)"] ∧
    ¬ (runTrace demoVideosStart demoOpsReuse).2.Nodup := by
  decide

end VideoApp
